import Mathlib

/-!
Verification of the karin-js-docs repository: a shallow embedding of the
VitePress site configuration (docs/.vitepress/config.mts, in both its
two-locale and single-locale variants), of the theme-extension module
(docs/.vitepress/theme/index.ts), and of the set of Markdown pages present
in the docs tree. All definitions are transcribed from the source files.
-/

/-- A navigation or sidebar entry as written in the configuration object:
either a leaf `text`/`link` pair, or a group with a `text` label, an
optional `collapsed` flag and an `items` array of entries. -/
inductive NavEntry where
  | leaf (text : String) (link : String)
  | group (text : String) (collapsed : Option Bool) (items : List NavEntry)


/-- A `footer` object of a theme configuration. -/
structure Footer where
  message : String
  copyright : String


/-- A `socialLinks` entry of a theme configuration. -/
structure SocialLink where
  icon : String
  link : String


/-- A `themeConfig` object. Every field the source may leave out is
optional; lists default to empty when the key is absent. -/
structure ThemeConfig where
  logo : Option String := none
  socialLinks : List SocialLink := []
  searchProvider : Option String := none
  nav : List NavEntry := []
  sidebar : List NavEntry := []
  footer : Option Footer := none
  docFooterPrev : Option String := none
  docFooterNext : Option String := none
  outlineLabel : Option String := none
  lastUpdatedText : Option String := none
  darkModeSwitchLabel : Option String := none
  sidebarMenuLabel : Option String := none
  returnToTopLabel : Option String := none


/-- One locale block of the `locales` object. -/
structure LocaleBlock where
  label : String
  lang : String
  link : Option String := none
  themeConfig : ThemeConfig


/-- The value passed to `defineConfig` (VitePress's `defineConfig` is an
identity helper used only for typing, so the module's export is this
object itself). `locales` is the list of key/block pairs in source order,
empty for the single-locale configuration variant. -/
structure SiteConfig where
  title : String
  description : String
  cleanUrls : Bool
  themeConfig : ThemeConfig
  locales : List (String × LocaleBlock) := []


/-- `locales.root.themeConfig` of the two-locale configuration
(docs/.vitepress/config.mts, English root block). -/
def enThemeConfig : ThemeConfig where
  nav :=
    [ .leaf ("Home") ("/"),
      .leaf ("Guide") ("/introduction"),
      .leaf ("Changelog")
        ("https://github.com/jefjesuswt/karin-js/blob/main/packages/core/CHANGELOG.md") ]
  sidebar :=
    [ .group ("Introduction") none
        [ .leaf ("What is KarinJS?") ("/introduction"),
          .leaf ("Getting Started") ("/getting-started") ],
      .group ("Core Concepts") none
        [ .leaf ("Controllers") ("/controllers"),
          .leaf ("Services & DI") ("/services"),
          .leaf ("Validation (Pipes)") ("/pipes"),
          .leaf ("Exception Handling") ("/exception-handling") ],
      .group ("Advanced") (some true)
        [ .leaf ("Guards (WIP)") ("#") ] ]
  footer := some ⟨"Released under the MIT License.", "© 2025 Jeffrey Jimenez"⟩

/-- `locales.es.themeConfig` of the two-locale configuration
(docs/.vitepress/config.mts, Spanish block). -/
def esThemeConfig : ThemeConfig where
  nav :=
    [ .leaf ("Inicio") ("/es/"),
      .leaf ("Guía") ("/es/introduction"),
      .leaf ("Changelog")
        ("https://github.com/jefjesuswt/karin-js/blob/main/packages/core/CHANGELOG.md") ]
  sidebar :=
    [ .group ("Introducción") none
        [ .leaf ("¿Qué es KarinJS?") ("/es/introduction"),
          .leaf ("Primeros Pasos") ("/es/getting-started") ],
      .group ("Conceptos Clave") none
        [ .leaf ("Controladores") ("/es/controllers"),
          .leaf ("Servicios e ID") ("/es/services"),
          .leaf ("Validación (Pipes)") ("/es/pipes"),
          .leaf ("Manejo de Excepciones") ("/es/exception-handling") ],
      .group ("Avanzado") (some true)
        [ .leaf ("Guards") ("/es/guards") ] ]
  footer := some ⟨"Lanzado bajo la licencia MIT.", "© 2025 Jeffrey Jimenez"⟩
  docFooterPrev := some ("Página anterior")
  docFooterNext := some ("Página siguiente")
  outlineLabel := some ("En esta página")
  lastUpdatedText := some ("Actualizado hace")
  darkModeSwitchLabel := some ("Apariencia")
  sidebarMenuLabel := some ("Menú")
  returnToTopLabel := some ("Volver arriba")

/-- The two-locale site configuration: the default export of
docs/.vitepress/config.mts. -/
def karinConfig : SiteConfig where
  title := "KarinJS"
  description :=
    "A Bun-native, module-less architecture framework built for speed, clarity, and developer velocity."
  cleanUrls := true
  themeConfig :=
    { logo := some ("/karin.png"),
      socialLinks := [⟨"github", "https://github.com/jefjesuswt/karin-js"⟩],
      searchProvider := some ("local") }
  locales :=
    [ ("root", { label := "English", lang := "en", themeConfig := enThemeConfig }),
      ("es", { label := "Español", lang := "es", link := some ("/es/"),
               themeConfig := esThemeConfig }) ]

/-- The single-locale configuration variant also present in the source
tree (the older docs/.vitepress/config.mts): one flat `themeConfig`, no
`locales` object. -/
def singleLocaleConfig : SiteConfig where
  title := "KarinJS"
  description :=
    "The enterprise-friendly, module-less backend framework built for Bun."
  cleanUrls := true
  themeConfig :=
    { nav :=
        [ .leaf ("Home") ("/"),
          .leaf ("Guide") ("/introduction"),
          .leaf ("Changelog")
            ("https://github.com/jefjesuswt/karin-js/blob/main/packages/core/CHANGELOG.md") ],
      sidebar :=
        [ .group ("Introduction") none
            [ .leaf ("What is KarinJS?") ("/introduction"),
              .leaf ("Getting Started") ("/getting-started") ],
          .group ("Core Concepts") none
            [ .leaf ("Controllers") ("/controllers"),
              .leaf ("Services & DI") ("/services"),
              .leaf ("Validation (Pipes)") ("/pipes"),
              .leaf ("Exception Handling") ("/exception-handling") ],
          .group ("Advanced") (some true)
            [ .leaf ("Guards (WIP)") ("#") ] ],
      socialLinks := [⟨"github", "https://github.com/jefjesuswt/karin-js"⟩],
      footer := some ⟨"Released under the MIT License.", "Copyright © 2025 Jeffrey Jimenez"⟩,
      searchProvider := some ("local") }

/-- The link of a leaf entry, `none` on a group. -/
def NavEntry.leafLink : NavEntry → Option String
  | .leaf _ l => some l
  | .group _ _ _ => none

/-- The leaf links of one entry: a leaf contributes its `link`, a group
the links of the leaves among its `items`. (Groups in this configuration
are never nested, which `NavEntry.wellFormedNode` below certifies, so
this collects every link.) -/
def NavEntry.ownLinks : NavEntry → List String
  | .leaf _ l => [l]
  | .group _ _ items => items.filterMap NavEntry.leafLink

/-- All leaf links of a list of entries, in source order. -/
def NavEntry.linksOf (es : List NavEntry) : List String :=
  es.foldr (fun e acc => e.ownLinks ++ acc) []

/-- `p` is a prefix of `s`, on the character lists. -/
def strHasPrefix (p s : String) : Bool := p.data.isPrefixOf s.data

/-- A link is external when it is a full URL (the configuration's only
external links start with the https scheme). -/
def isExternal (l : String) : Bool := strHasPrefix "https://" l

/-- The internal (non-URL) links among the leaf links of some entries. -/
def internalLinksOf (es : List NavEntry) : List String :=
  (NavEntry.linksOf es).filter (fun l => !isExternal l)

/-- Leaf links of the English (root) sidebar. -/
def rootSidebarLinks : List String := NavEntry.linksOf enThemeConfig.sidebar

/-- Leaf links of the Spanish (es) sidebar. -/
def esSidebarLinks : List String := NavEntry.linksOf esThemeConfig.sidebar

/-- English sidebar leaf links of the internal path form `/p`. -/
def rootSidebarInternal : List String :=
  rootSidebarLinks.filter (strHasPrefix "/")

/-- Spanish sidebar leaf links of the internal path form `/es/p`. -/
def esSidebarInternal : List String :=
  esSidebarLinks.filter (strHasPrefix "/")

/-- Every link of the nav and sidebar arrays of both locale blocks of the
two-locale site configuration. -/
def allConfigLinks : List String :=
  NavEntry.linksOf enThemeConfig.nav ++ rootSidebarLinks ++
    NavEntry.linksOf esThemeConfig.nav ++ esSidebarLinks

/-- Routes of the Markdown pages present in the repository's docs source
tree, under `cleanUrls` (`docs/p.md` serves `/p`, `docs/index.md` serves
`/`, `docs/es/index.md` serves `/es/`). Several source files bundle more
than one repository document; each document is identified by its
level-one title or front matter, which match the sidebar labels. The
documents present are: the English Introduction, Getting Started,
Controllers, Services & Dependency Injection, Pipes and Exception
Handling pages, the English home page (front matter `layout: home`), and
the Spanish home, Introducción, Primeros Pasos, Controladores, Servicios,
Pipes and Manejo de Excepciones pages. No Spanish guards page
(docs/es/guards.md) is present in the tree. -/
def existingPageRoutes : List String :=
  [ "/controllers", "/exception-handling", "/pipes",
    "/es/", "/es/introduction", "/es/pipes",
    "/introduction", "/getting-started", "/", "/services",
    "/es/getting-started", "/es/controllers", "/es/exception-handling",
    "/es/services" ]

/-- The configuration links that are neither external URLs nor routes of
pages present in the tree: the Guards (WIP) `#` placeholder and the
Spanish `/es/guards` page, whose Markdown file is absent. -/
def unresolvedConfigLinks : List String :=
  ["#", "/es/guards"]

/-- `true` on a leaf `text`/`link` pair. -/
def NavEntry.isLeaf : NavEntry → Bool
  | .leaf _ _ => true
  | .group _ _ _ => false

/-- A leaf is well formed outright; a group is well formed when each of
its `items` is a leaf `text`/`link` pair. -/
def NavEntry.wellFormedNode : NavEntry → Bool
  | .leaf _ _ => true
  | .group _ _ items => items.all NavEntry.isLeaf

/-- `nav` and `sidebar` non-empty and a `footer` with non-empty `message`
and `copyright`, as the spec requires of a locale block. -/
def ThemeConfig.hasLocaleEssentials (tc : ThemeConfig) : Bool :=
  !tc.nav.isEmpty && !tc.sidebar.isEmpty &&
    (match tc.footer with
     | some f => !f.message.isEmpty && !f.copyright.isEmpty
     | none => false)

/-- The one component the theme module mentions: `DefaultTheme.Layout`. -/
inductive Component where
  | defaultThemeLayout

/-- A virtual DOM node as built by Vue's `h(component, props, slots)`;
slots are named children. -/
inductive VNode where
  | node (c : Component) (props : Option Unit) (slots : List (String × VNode))

/-- Vue's `h`: build a virtual node from a component, props and slots. -/
def h (c : Component) (props : Option Unit) (slots : List (String × VNode)) : VNode :=
  .node c props slots

/-- The shape of a VitePress theme object: `extendsDefault` records the
`extends: DefaultTheme` field, `LayoutFn` the functional `Layout`
component, `enhanceApp` the app-setup hook, modelled by the
transformation it applies to the (abstract) app state `A`. -/
structure ThemeObj (A : Type) where
  extendsDefault : Bool
  LayoutFn : Unit → VNode
  enhanceApp : A → A

/-- The default export of docs/.vitepress/theme/index.ts: it extends
DefaultTheme, its `Layout` is `() => h(DefaultTheme.Layout, null, {})`
with an empty slot object, and its `enhanceApp({ app, router, siteData })`
has an empty body, hence changes nothing. -/
def themeIndex (A : Type) : ThemeObj A where
  extendsDefault := true
  LayoutFn := fun _ => h .defaultThemeLayout none []
  enhanceApp := fun a => a

/-- Rendering a virtual node, for an abstract rendering of components:
a node renders as its component applied to its slot children (`null`
props contribute nothing). -/
def renderVNode (renderComponent : Component → List (String × VNode) → Output) :
    VNode → Output
  | .node c _ slots => renderComponent c slots

/-- Observable behavior of installing a theme object: the rendered layout
and the composed app-setup transformation. Under `extends`, the base
DefaultTheme's `enhanceApp` runs first, then the theme's own. -/
def runTheme (renderComponent : Component → List (String × VNode) → Output)
    (dtEnhance : A → A) (t : ThemeObj A) : Output × (A → A) :=
  (renderVNode renderComponent (t.LayoutFn ()),
   if t.extendsDefault then t.enhanceApp ∘ dtEnhance else t.enhanceApp)

/-- Observable behavior of using DefaultTheme directly: its `Layout`
component mounted with no slot content, and its own `enhanceApp`. -/
def runDefaultTheme (renderComponent : Component → List (String × VNode) → Output)
    (dtEnhance : A → A) : Output × (A → A) :=
  (renderComponent .defaultThemeLayout [], dtEnhance)

/-- The ambient inputs a module evaluation could read: environment
variables, command-line arguments, working directory, file contents.
Neither TypeScript module of the repository references any of these. -/
structure Env where
  envVars : List (String × String)
  argv : List String
  cwd : String
  fileContents : List (String × String)

/-- Evaluating docs/.vitepress/config.mts: its body is one
`export default defineConfig({...})` of an object literal, so evaluation
ignores the environment. -/
def configModuleEval (_e : Env) : SiteConfig := karinConfig

/-- Evaluating docs/.vitepress/theme/index.ts: likewise a single constant
object-literal export. -/
def themeModuleEval (A : Type) (_e : Env) : ThemeObj A := themeIndex A

/-- The project README ("# Karin.js Documentation", a document bundled in
the docs tree): the dependency-installation command of its Running
Locally section and the script list of its Available Scripts section
(script name paired with the README's description of it). -/
structure Readme where
  installCommand : String
  scripts : List (String × String)

/-- The repository's README, transcribed from the source document. -/
def projectReadme : Readme where
  installCommand := "bun install"
  scripts :=
    [ ("docs:dev", "Starts the local development server."),
      ("docs:build", "Creates a production-ready build of the documentation site."),
      ("docs:preview", "Previews the production build locally.") ]

/-- The description the README gives for a script name, when listed. -/
def Readme.scriptDescription (r : Readme) (s : String) : Option String :=
  r.scripts.lookup s

/-- Claim C1, counterexample: the claimed locale parity fails in the
converse direction. The Spanish sidebar has a leaf with internal link
"/es/guards", but the English sidebar has no leaf with link "/guards"
(its Guards entry is the "#" placeholder). -/
theorem locale_parity_counterexample :
    ("/es/guards" ∈ esSidebarInternal) ∧ "/guards" ∉ rootSidebarLinks := by
  decide

/-- Claim C1, amended: for every leaf sidebar item with internal link
"/p" in the English (root) locale block, the Spanish sidebar has a leaf
with link "/es/p"; and conversely every Spanish leaf sidebar item with
internal link "/es/p", with the sole exception of "/es/guards", has an
English counterpart with link "/p". -/
theorem locale_parity_amended :
    (∀ l ∈ rootSidebarInternal, ("/es" ++ l) ∈ esSidebarInternal) ∧
      (∀ l ∈ esSidebarInternal, l ≠ "/es/guards" →
        (l.drop 3) ∈ rootSidebarInternal) := by
  decide

/-- Witness for the amended C1 at the concrete links "/introduction" and
"/es/pipes". -/
theorem locale_parity_amended_witness :
    (("/es" ++ "/introduction") ∈ esSidebarInternal) ∧
      (("/es/pipes").drop 3 ∈ rootSidebarInternal) :=
  ⟨locale_parity_amended.1 ("/introduction") (by decide),
   locale_parity_amended.2 ("/es/pipes") (by decide) (by decide)⟩

/-- Claim C2, counterexample: the link "#" of the English sidebar's
"Guards (WIP)" entry is neither an external URL nor the route of any
Markdown page present in the source tree. -/
theorem link_resolution_counterexample :
    ("#" ∈ allConfigLinks) ∧ isExternal "#" = false ∧
      "#" ∉ existingPageRoutes := by
  decide

/-- Claim C2, amended: every entry of the nav and sidebar arrays of both
locale blocks has a link that is an external URL or resolves to a
Markdown page present in the source tree, except for the two links of
`unresolvedConfigLinks` — the "#" placeholder of the Guards (WIP) entry
and "/es/guards" — whose target pages are absent. -/
theorem link_resolution_amended :
    ∀ l ∈ allConfigLinks, isExternal l = true ∨ l ∈ existingPageRoutes ∨
      l ∈ unresolvedConfigLinks := by
  decide

/-- Witness for the amended C2 at the concrete link "/introduction". -/
theorem link_resolution_amended_witness :
    isExternal "/introduction" = true ∨ "/introduction" ∈ existingPageRoutes ∨
      "/introduction" ∈ unresolvedConfigLinks :=
  link_resolution_amended ("/introduction") (by decide)

/-- Claim C3: the theme-extension module's export extends DefaultTheme,
its Layout renders `h(DefaultTheme.Layout, null, {})` with the empty slot
object, its enhanceApp changes nothing, and therefore installing it is
observably the same — same rendered layout, same app transformation — as
using the default theme directly, for every rendering of components and
every DefaultTheme enhanceApp. -/
theorem theme_adds_no_behavior (A Output : Type)
    (renderComponent : Component → List (String × VNode) → Output)
    (dtEnhance : A → A) (a : A) :
    (themeIndex A).extendsDefault = true ∧
      (themeIndex A).LayoutFn () = h .defaultThemeLayout none [] ∧
      (themeIndex A).enhanceApp a = a ∧
      runTheme renderComponent dtEnhance (themeIndex A) =
        runDefaultTheme renderComponent dtEnhance :=
  ⟨rfl, rfl, rfl, rfl⟩

/-- Claim C4: the `locales` object has exactly two blocks, root (English,
lang "en") and es (Español, lang "es"). -/
theorem exactly_two_locales :
    karinConfig.locales.map (fun p => (p.1, p.2.label, p.2.lang)) =
      [("root", "English", "en"), ("es", "Español", "es")] := by
  decide

/-- Claim C5: each of the two locale blocks carries a themeConfig with a
non-empty nav array, a non-empty sidebar array, and a footer with
non-empty message and copyright text. -/
theorem locale_blocks_have_essentials :
    karinConfig.locales.all
      (fun p => p.2.themeConfig.hasLocaleEssentials) = true := by
  decide

/-- Claim C6: in both locale blocks, every nav entry is a leaf text/link
pair, and every sidebar node is either such a pair or a labelled group
all of whose items are such pairs. -/
theorem nav_sidebar_leaf_shape :
    karinConfig.locales.all
      (fun p => p.2.themeConfig.nav.all NavEntry.isLeaf &&
        p.2.themeConfig.sidebar.all NavEntry.wellFormedNode) = true := by
  decide

/-- Claim C7: evaluating either TypeScript module of the repository
ignores the ambient environment: any two evaluations of the site
configuration module and of the theme module yield identical exports,
and the configuration export is the constant `karinConfig`. -/
theorem module_evaluation_deterministic :
    ∀ (A : Type) (e₁ e₂ : Env),
      configModuleEval e₁ = configModuleEval e₂ ∧
        themeModuleEval A e₁ = themeModuleEval A e₂ ∧
        configModuleEval e₁ = karinConfig :=
  fun _ _ _ => ⟨rfl, rfl, rfl⟩

/-- Claim C8: the project README describes how to install dependencies
(the `bun install` command) and lists descriptions for the
site-generator's development and build scripts. -/
theorem readme_contents :
    projectReadme.installCommand = "bun install" ∧
      (projectReadme.scriptDescription "docs:dev").isSome = true ∧
      (projectReadme.scriptDescription "docs:build").isSome = true := by
  decide

/-- Claim C9: every internal link of the Spanish locale block's nav and
sidebar starts with "/es/", and no internal link of the English block's
nav or sidebar starts with "/es". -/
theorem es_prefix_discipline :
    ((internalLinksOf esThemeConfig.nav ++
        internalLinksOf esThemeConfig.sidebar).all
          (strHasPrefix "/es/") = true) ∧
      ((internalLinksOf enThemeConfig.nav ++
          internalLinksOf enThemeConfig.sidebar).all
            (fun l => !strHasPrefix "/es" l) = true) := by
  decide

/-- Claim C10: the root-locale nav and sidebar of the two-locale
configuration are element-for-element identical to the nav and sidebar of
the single-locale configuration variant. -/
theorem english_nav_agrees_with_single_locale :
    enThemeConfig.nav = singleLocaleConfig.themeConfig.nav ∧
      enThemeConfig.sidebar = singleLocaleConfig.themeConfig.sidebar :=
  ⟨rfl, rfl⟩
